import Mathlib

/-!
# Verification of the PaliPractice extraction pipeline

A shallow embedding, in Lean 4, of the morphological extraction pipeline of
the PaliPractice repository (`scripts/extraction/*.py` and
`scripts/extract_nouns_and_verbs.py`), together with theorems settling the
spec claims about it.

Conventions of the embedding:

* Python `int` values that the code keeps non-negative (IDs, enum values,
  form ids, indices) are modelled as `Nat`; registry IDs are modelled as
  `Int` so that the range validation of `validate_registry` is meaningful
  on arbitrary integers, as in the source.
* Python dicts used as string-keyed maps (the registry partitions) are
  modelled as association lists `List (String × Int)`; `k in d` is
  `List.lookup` succeeding, `d[k] = v` on a fresh key appends, which is
  exactly CPython's insertion-order behaviour for new keys.
* Python sets of strings are modelled as duplicate-free `List String`
  built by `pySetInsert`; the only operations the code performs on them
  (membership, cardinality, intersection cardinality) agree with set
  semantics on such lists.
* Functions that `raise` are modelled with `Except`; a function that
  mutates its argument and may raise before mutating returns the
  post-state next to the `Except` result, so that "raises and leaves the
  state unchanged" is expressible.
* File and database I/O (reading `lemma_registry.json`, sqlite inserts,
  log files) is out of the embedded core, exactly as the spec's §1 puts
  the storage layers out of scope: we model the values computed and the
  decisions taken, not the writes.
-/

/-! ## Python string primitives

`pyIn needle hay` is Python's `needle in hay` on strings (substring
containment); `pySplit s` is Python's `s.split()` (split on whitespace
runs, dropping empty fragments). -/

/-- Python `s.lower()`, modelled as per-character lowering (the grammar
markers the classifiers look for are ASCII; core `String.toLower` computes
the same characters but its position-based loop does not kernel-reduce,
so the list form is used throughout). -/
def pyLower (s : String) : String :=
  ⟨s.toList.map Char.toLower⟩

/-- Python `s.strip()`: drop leading and trailing whitespace. -/
def pyStrip (s : String) : String :=
  ⟨((s.toList.dropWhile Char.isWhitespace).reverse.dropWhile Char.isWhitespace).reverse⟩

/-- Python `s.endswith(post)`. -/
def pyEndsWith (s post : String) : Bool :=
  post.toList.isSuffixOf s.toList

/-- Substring containment on character lists: the needle occurs
contiguously somewhere in the haystack (Python `needle in hay`). -/
def substrAux : List Char → List Char → Bool
  | needle, [] => needle.isEmpty
  | needle, c :: rest => needle.isPrefixOf (c :: rest) || substrAux needle rest

/-- Python `needle in hay` for strings. -/
def pyIn (needle hay : String) : Bool :=
  substrAux needle.toList hay.toList

/-- Worker for `pySplit`: `acc` holds the characters of the current token
in reverse. -/
def splitAux : List Char → List Char → List String
  | [], acc => if acc.isEmpty then [] else [⟨acc.reverse⟩]
  | c :: rest, acc =>
    if c.isWhitespace then
      if acc.isEmpty then splitAux rest [] else ⟨acc.reverse⟩ :: splitAux rest []
    else splitAux rest (c :: acc)

/-- Python `s.split()`: split on whitespace runs, discarding empty
pieces. -/
def pySplit (s : String) : List String :=
  splitAux s.toList []

/-- Insert into a Python-set-as-list: no-op when already present. -/
def pySetInsert (s : List String) (x : String) : List String :=
  if s.contains x then s else s ++ [x]

/-! ## FormIdCodec (`scripts/extraction/forms.py`, `validate_db.py`)

`compute_declension_form_id` / `compute_conjugation_form_id` are the
encoders from `scripts/extraction/forms.py` (the orchestrator script
carries byte-identical copies); `parse_declension_form_id` /
`parse_conjugation_form_id` are the decoders from
`scripts/extraction/validate_db.py`. -/

/-- `clean_stem` from `scripts/extraction/forms.py`: strip the DPD marker
characters `!` and `*` (the `re.sub` removes every occurrence). -/
def clean_stem (stem : String) : String :=
  ⟨stem.toList.filter (fun c => c ≠ '!' && c ≠ '*')⟩

/-- `compute_declension_form_id(lemma_id, case, gender, number, ending_index)`:
format lemma_id(5) + case(1) + gender(1) + number(1) + ending_index(1). -/
def compute_declension_form_id (lemma_id case_v gender number ending_index : Nat) : Nat :=
  lemma_id * 10000 + case_v * 1000 + gender * 100 + number * 10 + ending_index

/-- `compute_conjugation_form_id(lemma_id, tense, person, number, reflexive,
ending_index)`: format lemma_id(5) + tense(1) + person(1) + number(1) +
reflexive(1) + ending_index(1). -/
def compute_conjugation_form_id (lemma_id tense person number reflexive ending_index : Nat) : Nat :=
  lemma_id * 100000 + tense * 10000 + person * 1000 + number * 100 + reflexive * 10 + ending_index

/-- Result shape of `parse_declension_form_id` (the Python dict keys
`lemma_id`, `case`, `gender`, `number`, `ending_index`; `case` is a Lean
keyword, so the field is named `case_v`). -/
structure DeclensionParts where
  lemma_id : Nat
  case_v : Nat
  gender : Nat
  number : Nat
  ending_index : Nat
  deriving Repr, DecidableEq

/-- Result shape of `parse_conjugation_form_id` (dict keys `lemma_id`,
`tense`, `person`, `number`, `voice`, `ending_index`). -/
structure ConjugationParts where
  lemma_id : Nat
  tense : Nat
  person : Nat
  number : Nat
  voice : Nat
  ending_index : Nat
  deriving Repr, DecidableEq

/-- `parse_declension_form_id` from `scripts/extraction/validate_db.py`. -/
def parse_declension_form_id (form_id : Nat) : DeclensionParts :=
  { lemma_id := form_id / 10000
    case_v := (form_id % 10000) / 1000
    gender := (form_id % 1000) / 100
    number := (form_id % 100) / 10
    ending_index := form_id % 10 }

/-- `parse_conjugation_form_id` from `scripts/extraction/validate_db.py`. -/
def parse_conjugation_form_id (form_id : Nat) : ConjugationParts :=
  { lemma_id := form_id / 100000
    tense := (form_id % 100000) / 10000
    person := (form_id % 10000) / 1000
    number := (form_id % 1000) / 100
    voice := (form_id % 100) / 10
    ending_index := form_id % 10 }

/-! ## LemmaRegistry (`scripts/extraction/registry.py`, `config.py`) -/

def NOUN_ID_START : Int := 10001
def NOUN_ID_MAX : Int := 69999
def VERB_ID_START : Int := 70001
def VERB_ID_MAX : Int := 99999

/-- `is_plural_only_pattern` from `scripts/extraction/config.py`:
`pattern.strip().endswith(' pl')`. -/
def is_plural_only_pattern (pattern : String) : Bool :=
  pyEndsWith (pyStrip pattern) " pl"

/-- The registry record: `{version, next_noun_id, next_verb_id, nouns,
verbs}`. The Python value is a JSON-shaped dict; the required-keys check of
`validate_registry` is discharged structurally by this record type. -/
structure Registry where
  version : Int
  next_noun_id : Int
  next_verb_id : Int
  nouns : List (String × Int)
  verbs : List (String × Int)
  deriving Repr, DecidableEq

/-- One constructor per `raise RegistryError(...)` site of
`scripts/extraction/registry.py`. -/
inductive RegistryError where
  | invalidNounId
  | invalidVerbId
  | nounWatermark
  | verbWatermark
  | dupNounIds
  | dupVerbIds
  | nounRemoved (l : String)
  | nounChanged (l : String)
  | verbRemoved (l : String)
  | verbChanged (l : String)
  | nounOverflow
  | verbOverflow
  deriving Repr, DecidableEq

/-- Largest value of a list of registry IDs (`max(dict.values())`; only
used under a non-emptiness guard, as in the source). -/
def maxId : List Int → Int
  | [] => 0
  | x :: xs => xs.foldl max x

/-- `validate_registry` from `scripts/extraction/registry.py`: range check
per partition, watermark above every existing ID, no duplicate IDs; the
first failing check raises, later checks are not reached. (The
`isinstance(lid, int)` check is discharged by typing.) -/
def validate_registry (r : Registry) : Except RegistryError Unit :=
  if r.nouns.any (fun p => p.2 < NOUN_ID_START || p.2 > NOUN_ID_MAX) then
    Except.error RegistryError.invalidNounId
  else if r.verbs.any (fun p => p.2 < VERB_ID_START || p.2 > VERB_ID_MAX) then
    Except.error RegistryError.invalidVerbId
  else if !r.nouns.isEmpty && r.next_noun_id ≤ maxId (r.nouns.map Prod.snd) then
    Except.error RegistryError.nounWatermark
  else if !r.verbs.isEmpty && r.next_verb_id ≤ maxId (r.verbs.map Prod.snd) then
    Except.error RegistryError.verbWatermark
  else if (r.nouns.map Prod.snd).dedup.length ≠ (r.nouns.map Prod.snd).length then
    Except.error RegistryError.dupNounIds
  else if (r.verbs.map Prod.snd).dedup.length ≠ (r.verbs.map Prod.snd).length then
    Except.error RegistryError.dupVerbIds
  else Except.ok ()

/-- The diff loop of `save_registry` over one partition: every lemma of
the original partition must still be present, with the same ID. -/
def checkPreserved (removed changed : String → RegistryError)
    (newPart : List (String × Int)) : List (String × Int) → Except RegistryError Unit
  | [] => Except.ok ()
  | (lem, original_id) :: rest =>
    match newPart.lookup lem with
    | none => Except.error (removed lem)
    | some id => if id ≠ original_id then Except.error (changed lem)
                 else checkPreserved removed changed newPart rest

/-- `save_registry(registry, original_registry)` from
`scripts/extraction/registry.py`, up to the file writes: validate, then
assert no existing mapping of either partition was removed or changed.
(The backup copy and the atomic temp-file rename are file I/O, outside the
embedded core; they happen only after every check has passed.) -/
def save_registry (registry original_registry : Registry) : Except RegistryError Unit :=
  match validate_registry registry with
  | Except.error e => Except.error e
  | Except.ok _ =>
    match checkPreserved RegistryError.nounRemoved RegistryError.nounChanged
            registry.nouns original_registry.nouns with
    | Except.error e => Except.error e
    | Except.ok _ =>
      checkPreserved RegistryError.verbRemoved RegistryError.verbChanged
        registry.verbs original_registry.verbs

/-- `get_noun_lemma_id(registry, lemma_clean)`: returns the stored ID when
present; otherwise assigns the watermark, appends the mapping and advances
the watermark, raising on overflow. The returned `Registry` is the state
of the Python dict after the call (unchanged on the lookup and the raise
paths, since the raise precedes every mutation). -/
def get_noun_lemma_id (registry : Registry) (lemma_clean : String) :
    Except RegistryError Int × Registry :=
  match registry.nouns.lookup lemma_clean with
  | some id => (Except.ok id, registry)
  | none =>
    let new_id := registry.next_noun_id
    if new_id > NOUN_ID_MAX then (Except.error RegistryError.nounOverflow, registry)
    else (Except.ok new_id,
      { registry with
          nouns := registry.nouns ++ [(lemma_clean, new_id)]
          next_noun_id := new_id + 1 })

/-- `get_verb_lemma_id(registry, lemma_clean)`: the verb partition twin of
`get_noun_lemma_id`. -/
def get_verb_lemma_id (registry : Registry) (lemma_clean : String) :
    Except RegistryError Int × Registry :=
  match registry.verbs.lookup lemma_clean with
  | some id => (Except.ok id, registry)
  | none =>
    let new_id := registry.next_verb_id
    if new_id > VERB_ID_MAX then (Except.error RegistryError.verbOverflow, registry)
    else (Except.ok new_id,
      { registry with
          verbs := registry.verbs ++ [(lemma_clean, new_id)]
          next_verb_id := new_id + 1 })

/-! ## GrammarClassifier (`scripts/extraction/grammar.py` and the copy in
`scripts/extract_nouns_and_verbs.py`)

The two copies are textually identical except for their `GrammarEnums`
gender constants: the extraction package declares `GENDER_FEMININE = 2`,
`GENDER_NEUTER = 3`, the orchestrator script declares `GENDER_NEUTER = 2`,
`GENDER_FEMININE = 3`. Each copy is embedded in its own namespace
(`Grammar` for the package, `Extractor` for the orchestrator); the
case-abbreviation table and its two scan loops, identical in both files,
are shared helpers. -/

/-- Output record of `parse_noun_grammar` (dict keys `case_name`,
`number`, `gender`). -/
structure NounGrammar where
  case_name : Nat
  number : Nat
  gender : Nat
  deriving Repr, DecidableEq

/-- Output record of `parse_verb_grammar` (dict keys `person`, `number`,
`tense`, `reflexive`). -/
structure VerbGrammar where
  person : Nat
  number : Nat
  tense : Nat
  reflexive : Nat
  deriving Repr, DecidableEq

/-- The `case_abbr_map` of both `parse_noun_grammar` copies, in insertion
(= iteration = priority) order. -/
def case_abbr_map : List (String × Nat) :=
  [("nom", 1), ("acc", 2), ("instr", 3), ("dat", 4),
   ("abl", 5), ("gen", 6), ("loc", 7), ("voc", 8)]

/-- The first scan loop of both copies: first abbreviation that occurs as
a whole token of the split descriptor wins (`if abbr in parts: break`). -/
def caseFromParts (parts : List String) : Nat :=
  match case_abbr_map.find? (fun pr => parts.contains pr.1) with
  | some pr => pr.2
  | none => 0

/-- The label-fallback scan loop of both copies: first abbreviation that
occurs as a substring of the lowercased label wins
(`if abbr in label.lower(): break`). -/
def caseFromLabel (labelLower : String) : Nat :=
  match case_abbr_map.find? (fun pr => pyIn pr.1 labelLower) with
  | some pr => pr.2
  | none => 0

namespace Grammar

/-- Gender constants of `scripts/extraction/grammar.py`. -/
def GENDER_MASCULINE : Nat := 1
def GENDER_FEMININE : Nat := 2
def GENDER_NEUTER : Nat := 3

/-- `parse_noun_grammar(grammar_str, label, pos)` from
`scripts/extraction/grammar.py`. `pos` is accepted and ignored, as in the
source. -/
def parse_noun_grammar (grammar_str label _pos : String) : NounGrammar :=
  let grammar_lower := pyLower grammar_str
  let parts := pySplit grammar_lower
  let gender :=
    if pyIn "masc" grammar_lower then GENDER_MASCULINE
    else if pyIn "fem" grammar_lower then GENDER_FEMININE
    else if pyIn "nt" grammar_lower then GENDER_NEUTER
    else 0
  let number :=
    if parts.contains "sg" || pyIn "singular" grammar_lower then 1
    else if parts.contains "pl" || pyIn "plural" grammar_lower then 2
    else 0
  let case0 := caseFromParts parts
  let case1 := if case0 == 0 && !label.isEmpty then caseFromLabel (pyLower label) else case0
  { case_name := case1, number := number, gender := gender }

/-- `parse_verb_grammar(grammar_str, label, pos)` from
`scripts/extraction/grammar.py`. `label` and `pos` are accepted and
ignored, as in the source. -/
def parse_verb_grammar (grammar_str _label _pos : String) : VerbGrammar :=
  let grammar_lower := pyLower grammar_str
  let parts := pySplit grammar_lower
  let person :=
    if pyIn "1st" grammar_lower || pyIn "first" grammar_lower then 1
    else if pyIn "2nd" grammar_lower || pyIn "second" grammar_lower then 2
    else if pyIn "3rd" grammar_lower || pyIn "third" grammar_lower then 3
    else 0
  let number :=
    if parts.contains "sg" || pyIn "singular" grammar_lower then 1
    else if parts.contains "pl" || pyIn "plural" grammar_lower then 2
    else 0
  let tense :=
    if pyIn "opt" grammar_lower then 3
    else if pyIn "imp" grammar_lower then 2
    else if pyIn "fut" grammar_lower then 4
    else if pyIn "aor" grammar_lower then 5
    else if pyIn "pr" grammar_lower || pyIn "pres" grammar_lower then 1
    else 0
  let reflexive := if pyIn "reflx" grammar_lower then 1 else 0
  { person := person, number := number, tense := tense, reflexive := reflexive }

end Grammar

namespace Extractor

/-- Gender constants of the orchestrator's `GrammarEnums`
(`scripts/extract_nouns_and_verbs.py`): note `GENDER_NEUTER = 2` and
`GENDER_FEMININE = 3`, the reverse of the extraction package. -/
def GENDER_MASCULINE : Nat := 1
def GENDER_NEUTER : Nat := 2
def GENDER_FEMININE : Nat := 3

/-- `NounVerbExtractor.pos_to_gender` from
`scripts/extract_nouns_and_verbs.py`. -/
def pos_to_gender (pos : String) : Nat :=
  let pos_lower := pyLower pos
  if ["masc", "masculine"].contains pos_lower then GENDER_MASCULINE
  else if ["fem", "feminine"].contains pos_lower then GENDER_FEMININE
  else if ["nt", "neut", "neuter"].contains pos_lower then GENDER_NEUTER
  else 0

/-- `NounVerbExtractor.parse_noun_grammar` from
`scripts/extract_nouns_and_verbs.py`: the same text as the package copy,
referring to the orchestrator's gender constants. -/
def parse_noun_grammar (grammar_str label _pos : String) : NounGrammar :=
  let grammar_lower := pyLower grammar_str
  let parts := pySplit grammar_lower
  let gender :=
    if pyIn "masc" grammar_lower then GENDER_MASCULINE
    else if pyIn "fem" grammar_lower then GENDER_FEMININE
    else if pyIn "nt" grammar_lower then GENDER_NEUTER
    else 0
  let number :=
    if parts.contains "sg" || pyIn "singular" grammar_lower then 1
    else if parts.contains "pl" || pyIn "plural" grammar_lower then 2
    else 0
  let case0 := caseFromParts parts
  let case1 := if case0 == 0 && !label.isEmpty then caseFromLabel (pyLower label) else case0
  { case_name := case1, number := number, gender := gender }

/-- `NounVerbExtractor.parse_verb_grammar` from
`scripts/extract_nouns_and_verbs.py` (identical to the package copy: the
person/tense/reflexive constants agree between the two files). -/
def parse_verb_grammar (grammar_str _label _pos : String) : VerbGrammar :=
  let grammar_lower := pyLower grammar_str
  let parts := pySplit grammar_lower
  let person :=
    if pyIn "1st" grammar_lower || pyIn "first" grammar_lower then 1
    else if pyIn "2nd" grammar_lower || pyIn "second" grammar_lower then 2
    else if pyIn "3rd" grammar_lower || pyIn "third" grammar_lower then 3
    else 0
  let number :=
    if parts.contains "sg" || pyIn "singular" grammar_lower then 1
    else if parts.contains "pl" || pyIn "plural" grammar_lower then 2
    else 0
  let tense :=
    if pyIn "opt" grammar_lower then 3
    else if pyIn "imp" grammar_lower then 2
    else if pyIn "fut" grammar_lower then 4
    else if pyIn "aor" grammar_lower then 5
    else if pyIn "pr" grammar_lower || pyIn "pres" grammar_lower then 1
    else 0
  let reflexive := if pyIn "reflx" grammar_lower then 1 else 0
  { person := person, number := number, tense := tense, reflexive := reflexive }

end Extractor

/-! ## TemplateExpander (`NounVerbExtractor.parse_inflection_template`)
and the per-lemma decisions of `NounVerbExtractor.extract_and_save`
(`scripts/extract_nouns_and_verbs.py`)

The inflection template is the JSON value stored on the headword: a list
of rows, each row a list of heterogeneous cells (a string, or a list of
strings). `Cell` covers both shapes; Python truthiness of a cell is
`Cell.truthy`. A headword (`DpdHeadword`) enters the embedding as `Word`
with the fields the expander and the dedup module read; `template = none`
covers both a missing `word.it`/`word.it.data` and a JSON decode error,
which the source collapses to the same "no forms" outcome. -/

/-- A template cell: the JSON value is either a plain string or a list of
strings (endings lists, label lists, grammar-info lists). -/
inductive Cell where
  | str : String → Cell
  | strs : List String → Cell
  deriving Repr, DecidableEq

/-- Python truthiness of a cell (`if not row[col]: ...`): empty strings
and empty lists are falsy. -/
def Cell.truthy : Cell → Bool
  | .str s => !s.isEmpty
  | .strs l => !l.isEmpty

/-- The headword fields read by the expander and the dedup module. -/
structure Word where
  lemma_1 : String
  stem : String
  pos : String
  pattern : String
  template : Option (List (List Cell))
  deriving Repr, DecidableEq

/-- One corpus-attestation-and-grammar-classified form, the dict built per
ending in `parse_inflection_template` (`γ` is the parsed-grammar record,
`NounGrammar` or `VerbGrammar` according to `word_type`). -/
structure FormEntry (γ : Type) where
  form : String
  in_corpus : Bool
  ending_index : Nat
  grammar : γ
  deriving Repr, DecidableEq

namespace Extractor

/-- `grammar_label = row[0][0] if row[0] else ""`: first element of a
truthy list cell, first character of a truthy string cell, else "". -/
def headLabel (c : Cell) : String :=
  if c.truthy then
    match c with
    | .str s => ⟨s.toList.take 1⟩
    | .strs l => l.headD ""
  else ""

/-- The odd column indices `1, 3, 5, ...` below `n`: the cells visited by
the `while col_idx < len(row): ... col_idx += 2` loop starting at 1. -/
def oddIndicesBelow (n : Nat) : List Nat :=
  (List.range n).filter (fun i => i % 2 == 1)

/-- The forms contributed by one endings/grammar column pair of one row:
skip a falsy endings cell; normalize a string cell to a singleton list;
read the paired grammar cell when present and truthy; emit one entry per
non-empty ending, `stem + ending` (bare stem for the `-` sentinel), with
its 0-based `ending_index` and the classified grammar. -/
def cellEntries (γ : Type) (parseG : String → String → String → γ)
    (corpus : List String) (stem label pos : String) (row : List Cell) (i : Nat) :
    List (FormEntry γ) :=
  let c := row.getD i (.str "")
  if !c.truthy then []
  else
    let endings := match c with
      | .strs l => l
      | .str s => [s]
    let grammar_info :=
      if i + 1 < row.length && (row.getD (i + 1) (.str "")).truthy then
        match row.getD (i + 1) (.str "") with
        | .strs l => l.headD ""
        | .str s => s
      else ""
    let parsed := parseG grammar_info label pos
    endings.enum.filterMap (fun pr =>
      if !pr.2.isEmpty then
        let inflected := if pr.2 ≠ "-" then stem ++ pr.2 else stem
        some { form := inflected
               in_corpus := corpus.contains inflected
               ending_index := pr.1
               grammar := parsed }
      else none)

/-- The forms contributed by one template row: rows shorter than 2 cells
are skipped; otherwise every odd-column pair is processed in order. -/
def rowEntries (γ : Type) (parseG : String → String → String → γ)
    (corpus : List String) (stem pos : String) (row : List Cell) : List (FormEntry γ) :=
  if row.length < 2 then []
  else
    let label := headLabel (row.getD 0 (.str ""))
    (oddIndicesBelow row.length).flatMap (fun i => cellEntries γ parseG corpus stem label pos row i)

/-- `NounVerbExtractor.parse_inflection_template(word, word_type)`:
header row skipped, remaining rows expanded in order; returns
`(forms, total_forms_generated, forms_not_in_corpus)`. The two counters
increment exactly once per emitted form (resp. per emitted form that
failed the corpus lookup), so they equal the list lengths shown. -/
def parse_inflection_template (γ : Type) (parseG : String → String → String → γ)
    (corpus : List String) (w : Word) : List (FormEntry γ) × Nat × Nat :=
  match w.template with
  | none => ([], 0, 0)
  | some rows =>
    let stem := clean_stem w.stem
    let forms := (rows.drop 1).flatMap (fun row => rowEntries γ parseG corpus stem w.pos row)
    (forms, forms.length, (forms.filter (fun f => !f.in_corpus)).length)

/-- The noun instantiation (`word_type == 'noun'`), classifying with the
orchestrator's own `parse_noun_grammar`. -/
def parse_inflection_template_noun (corpus : List String) (w : Word) :
    List (FormEntry NounGrammar) × Nat × Nat :=
  parse_inflection_template NounGrammar parse_noun_grammar corpus w

/-- The verb instantiation (`word_type == 'verb'`). -/
def parse_inflection_template_verb (corpus : List String) (w : Word) :
    List (FormEntry VerbGrammar) × Nat × Nat :=
  parse_inflection_template VerbGrammar parse_verb_grammar corpus w

/-- The nominative-singular test of `extract_and_save`:
`any(f.get('case_name') == CASE_NOMINATIVE and f.get('number') ==
NUMBER_SINGULAR for f in forms)`. -/
def has_nom_sg (forms : List (FormEntry NounGrammar)) : Bool :=
  forms.any (fun f => f.grammar.case_name == 1 && f.grammar.number == 1)

/-- The per-noun gate of `extract_and_save`: a noun's declensions are
persisted (and the noun counted as processed rather than discarded) iff
its parsed forms list is non-empty and contains a nominative singular.
The pattern is not consulted here. -/
def noun_is_trainable (corpus : List String) (w : Word) : Bool :=
  let forms := (parse_inflection_template_noun corpus w).1
  !forms.isEmpty && has_nom_sg forms

/-- The `corpus_declensions` rows `extract_and_save` writes for one noun:
under the gate, one form id per corpus-attested form, encoded with the
noun's own `pos_to_gender` gender (not the form's) and the 1-based
`ending_index + 1`. (The sqlite duplicate-key skip leaves at most the set
of these values in the table.) -/
def noun_corpus_declension_ids (corpus : List String) (lemma_id : Nat) (w : Word) :
    List Nat :=
  let forms := (parse_inflection_template_noun corpus w).1
  let gender := pos_to_gender w.pos
  if !forms.isEmpty && has_nom_sg forms then
    forms.filterMap (fun f =>
      if f.in_corpus then
        some (compute_declension_form_id lemma_id f.grammar.case_name gender
                f.grammar.number (f.ending_index + 1))
      else none)
  else []

/-- The `corpus_conjugations` rows `extract_and_save` writes for one verb:
no completeness gate, one form id per corpus-attested form with the
1-based `ending_index + 1`. -/
def verb_corpus_conjugation_ids (corpus : List String) (lemma_id : Nat) (w : Word) :
    List Nat :=
  let forms := (parse_inflection_template_verb corpus w).1
  if !forms.isEmpty then
    forms.filterMap (fun f =>
      if f.in_corpus then
        some (compute_conjugation_form_id lemma_id f.grammar.tense f.grammar.person
                f.grammar.number f.grammar.reflexive (f.ending_index + 1))
      else none)
  else []

end Extractor

/-! ## PluralOnlyDeduplicator (`scripts/extraction/plural_dedup.py`)

The deduplicator's two template readers and its redundancy decision.
Python sets of surface forms are modelled as duplicate-free `List String`
(see the header); the singular index `self._singular_index` (a dict from
stem to a list of `(lemma_1, pattern, plural_forms)` triples) is an
association list, looked up with default `[]` as `dict.get(stem, [])`
does. -/

namespace Dedup

/-- `row[0][0] if row[0] and isinstance(row[0], list) else (row[0] or "")`:
the row label as read by both dedup template readers. (On an empty row the
Python expression would raise `IndexError`; the model reads the default
empty cell, an input no template produces.) -/
def dedupLabel (row : List Cell) : String :=
  match row.getD 0 (Cell.str "") with
  | .strs l => if l.isEmpty then "" else l.headD ""
  | .str s => s

/-- The `"in comps" in str(row_label).lower()` row skip shared by both
dedup template readers. -/
def rowSkip (row : List Cell) : Bool :=
  pyIn "in comps" (pyLower (dedupLabel row))

/-- Add the surface forms of one endings list to the accumulated set:
every non-empty, non-`"-"` ending contributes `stem + ending`. -/
def addEndings (stem : String) (acc : List String) (endings : List String) : List String :=
  endings.foldl (fun a e => if !e.isEmpty && e ≠ "-" then pySetInsert a (stem ++ e) else a) acc

/-- One row of `_get_all_forms_from_template`: skip `in comps` rows, then
walk the odd (endings) columns, skipping falsy cells and normalizing
string cells to singletons. -/
def rowAllForms (stem : String) (acc : List String) (row : List Cell) : List String :=
  if rowSkip row then acc
  else
    (Extractor.oddIndicesBelow row.length).foldl (fun a i =>
      let c := row.getD i (Cell.str "")
      if !c.truthy then a
      else
        let endings := match c with
          | .strs l => l
          | .str s => [s]
        addEndings stem a endings) acc

/-- `PluralOnlyDeduplicator._get_all_forms_from_template(word)`: all
surface forms of the template (used for plural-only lemmas, where every
cell is plural). -/
def get_all_forms_from_template (w : Word) : List String :=
  match w.template with
  | none => []
  | some rows => (rows.drop 1).foldl (fun acc row => rowAllForms (clean_stem w.stem) acc row) []

/-- One row of `_get_plural_forms_from_template`: rows shorter than 4
cells and `in comps` rows are skipped; a column pair contributes only when
its grammar cell is truthy and `'pl'` is a whole token of the lowercased
grammar string. -/
def rowPluralForms (stem : String) (acc : List String) (row : List Cell) : List String :=
  if row.length < 4 then acc
  else if rowSkip row then acc
  else
    (Extractor.oddIndicesBelow row.length).foldl (fun a i =>
      if i + 1 ≥ row.length then a
      else
        let gi := row.getD (i + 1) (Cell.str "")
        if !gi.truthy then a
        else
          let grammar_str := match gi with
            | .strs l => l.headD ""
            | .str s => s
          if (pySplit (pyLower grammar_str)).contains "pl" then
            let endings := match row.getD i (Cell.str "") with
              | .strs l => l
              | .str s => if s.isEmpty then [] else [s]
            addEndings stem a endings
          else a) acc

/-- `PluralOnlyDeduplicator._get_plural_forms_from_template(word)`: the
plural-column surface forms of an ordinary lemma's template. -/
def get_plural_forms_from_template (w : Word) : List String :=
  match w.template with
  | none => []
  | some rows => (rows.drop 1).foldl (fun acc row => rowPluralForms (clean_stem w.stem) acc row) []

/-- `PluralMatchResult` of `scripts/extraction/plural_dedup.py`. The
source's `match_ratio` float is the exact rational `match_share` here
(every ratio the code computes is a quotient of small integers, and the
0.5 threshold is exactly representable, so float rounding never changes a
comparison at these magnitudes). -/
structure PluralMatchResult where
  is_redundant : Bool
  matched_lemma : Option String := none
  matched_pattern : Option String := none
  match_share : ℚ := 0
  plural_only_forms : Nat := 0
  matching_forms : Nat := 0
  deriving Repr, DecidableEq

/-- A singular-index entry: `(lemma_1, pattern, plural_forms)`. -/
abbrev Candidate := String × String × List String

/-- The candidate loop of `check_redundant`: skip candidates with no
plural forms; compute the overlap share; keep the strictly best result so
far; stop at the first candidate whose share exceeds 0.5 (the source's
early exit). -/
def check_loop (forms : List String) :
    List Candidate → PluralMatchResult → PluralMatchResult
  | [], best => best
  | (lemma_1, sing_pattern, sing_plural_forms) :: rest, best =>
    if sing_plural_forms.isEmpty then check_loop forms rest best
    else
      let matching := forms.filter (fun x => sing_plural_forms.contains x)
      let share : ℚ :=
        if forms.isEmpty then 0 else (matching.length : ℚ) / (forms.length : ℚ)
      let best2 :=
        if share > best.match_share then
          { is_redundant := share > (1 : ℚ) / 2
            matched_lemma := some lemma_1
            matched_pattern := some sing_pattern
            match_share := share
            plural_only_forms := forms.length
            matching_forms := matching.length }
        else best
      if share > (1 : ℚ) / 2 then best2 else check_loop forms rest best2

/-- `PluralOnlyDeduplicator.check_redundant(word)` over an explicit index
state: non-plural-only patterns and empty form sets short-circuit to "not
redundant"; otherwise the same-stem candidates are scanned by
`check_loop`. (The two tally counters the method also updates are
statistics, not part of the decision.) -/
def check_redundant (index : List (String × List Candidate)) (w : Word) :
    PluralMatchResult :=
  if !is_plural_only_pattern w.pattern then { is_redundant := false }
  else
    let stem := clean_stem w.stem
    let plural_only_forms := get_all_forms_from_template w
    if plural_only_forms.isEmpty then
      { is_redundant := false, plural_only_forms := 0 }
    else
      let candidates := (index.lookup stem).getD []
      check_loop plural_only_forms candidates
        { is_redundant := false, plural_only_forms := plural_only_forms.length }

end Dedup

/-! ## Concrete inputs used by counterexamples and witnesses -/

/-- A plural-only noun (pattern "a masc pl") whose template has a single
plural row: it generates forms but no nominative singular. -/
def wPluralOnly : Word :=
  { lemma_1 := "kusala 2", stem := "kusal", pos := "masc", pattern := "a masc pl",
    template := some [[Cell.str "header"],
      [Cell.strs ["nom"], Cell.strs ["ā"], Cell.strs ["a masc nom pl"]]] }

/-- A noun whose template consists of one compounding-only row (label
"in comps"). -/
def wInComps : Word :=
  { lemma_1 := "x", stem := "x", pos := "masc", pattern := "a masc",
    template := some [[Cell.str "header"],
      [Cell.strs ["in comps"], Cell.strs ["kara"], Cell.strs [""]]] }

/-- A noun whose nominative-singular cell offers ten alternative endings:
the tenth has 0-based variant ordinal 9. -/
def wTenEndings : Word :=
  { lemma_1 := "x", stem := "x", pos := "masc", pattern := "a masc",
    template := some [[Cell.str "header"],
      [Cell.strs ["nom"],
       Cell.strs ["a", "b", "c", "d", "e", "f", "g", "h", "i", "j"],
       Cell.strs ["masc nom sg"]]] }

/-- An ordinary noun with a single nominative-singular ending. -/
def wOneEnding : Word :=
  { lemma_1 := "x", stem := "x", pos := "masc", pattern := "a masc",
    template := some [[Cell.str "header"],
      [Cell.strs ["nom"], Cell.strs ["o"], Cell.strs ["masc nom sg"]]] }

/-- A plural-only noun with five extracted forms xa..xe. -/
def wFiveForms : Word :=
  { lemma_1 := "w", stem := "x", pos := "masc", pattern := "a masc pl",
    template := some [[Cell.str "header"],
      [Cell.strs ["nom"], Cell.strs ["a", "b", "c", "d", "e"], Cell.strs ["a masc nom pl"]]] }

/-- A singular index state for stem "x" with two candidates: lemA's
plural forms cover 3 of the 5 forms of `wFiveForms` (share 0.6), lemB's
cover all 5 (share 1.0). -/
def c7Index : List (String × List Dedup.Candidate) :=
  [("x", [("lemA", "a masc", ["xa", "xb", "xc"]),
          ("lemB", "a masc", ["xa", "xb", "xc", "xd", "xe"])])]

/-! ## Helper lemmas (shared) -/

/-- Looking up a key that is absent from the front list finds the single
appended binding. -/
theorem lookup_append_single {α β : Type} [BEq α] [LawfulBEq α]
    (xs : List (α × β)) (k : α) (v : β) (h : xs.lookup k = none) :
    (xs ++ [(k, v)]).lookup k = some v := by
  induction xs with
  | nil => simp [List.lookup]
  | cons hd tl ih =>
    obtain ⟨a, b⟩ := hd
    simp only [List.cons_append, List.lookup] at h ⊢
    cases hab : (k == a) with
    | true => rw [hab] at h; exact Option.noConfusion h
    | false => rw [hab] at h; exact ih h

/-- `checkPreserved` succeeds exactly when every original binding is
still present with the same ID. -/
theorem checkPreserved_ok_iff (removed changed : String → RegistryError)
    (np : List (String × Int)) (op : List (String × Int)) :
    checkPreserved removed changed np op = Except.ok () ↔
      ∀ p ∈ op, np.lookup p.1 = some p.2 := by
  induction op with
  | nil => simp [checkPreserved]
  | cons hd tl ih =>
    obtain ⟨l, oid⟩ := hd
    simp only [checkPreserved]
    split
    · rename_i hnp
      constructor
      · intro h; cases h
      · intro h
        have h2 : np.lookup l = some oid := h (l, oid) (List.mem_cons_self _ _)
        rw [hnp] at h2
        cases h2
    · rename_i id hnp
      by_cases hid : id = oid
      · subst hid
        rw [if_neg (by simp)]
        rw [ih]
        constructor
        · intro h p hp
          rcases List.mem_cons.mp hp with rfl | h2
          · exact hnp
          · exact h p h2
        · intro h p hp
          exact h p (List.mem_cons_of_mem _ hp)
      · rw [if_pos hid]
        constructor
        · intro h; cases h
        · intro h
          have h2 : np.lookup l = some oid := h (l, oid) (List.mem_cons_self _ _)
          rw [hnp] at h2
          exact absurd (Option.some.inj h2) hid

/-! ## Claims -/

/-- C1. For every lemma_id in its partition range and every tuple of
single-decimal-digit dimension values, decoding the encoded form id
returns exactly the input tuple, for both the declension and the
conjugation codec. -/
theorem claim_c1_codec_bijection
    (nid c g n e : Nat) (_hnid1 : 10001 ≤ nid) (_hnid2 : nid ≤ 69999)
    (hc : c ≤ 9) (hg : g ≤ 9) (hn : n ≤ 9) (he : e ≤ 9)
    (vid t p m r f : Nat) (_hvid1 : 70001 ≤ vid) (_hvid2 : vid ≤ 99999)
    (ht : t ≤ 9) (hp : p ≤ 9) (hm : m ≤ 9) (hr : r ≤ 9) (hf : f ≤ 9) :
    parse_declension_form_id (compute_declension_form_id nid c g n e) =
      { lemma_id := nid, case_v := c, gender := g, number := n, ending_index := e } ∧
    parse_conjugation_form_id (compute_conjugation_form_id vid t p m r f) =
      { lemma_id := vid, tense := t, person := p, number := m, voice := r, ending_index := f } := by
  constructor
  · simp only [compute_declension_form_id, parse_declension_form_id,
      DeclensionParts.mk.injEq]
    refine ⟨?_, ?_, ?_, ?_, ?_⟩ <;> omega
  · simp only [compute_conjugation_form_id, parse_conjugation_form_id,
      ConjugationParts.mk.injEq]
    refine ⟨?_, ?_, ?_, ?_, ?_, ?_⟩ <;> omega

/-- Witness for C1 at the two worked examples of the source docstrings:
`10789_3_1_2_2 -> 107893122` and `70683_2_3_1_0_3 -> 7068323103`. -/
theorem claim_c1_codec_bijection_witness :
    (10001 ≤ 10789 ∧ 10789 ≤ 69999 ∧ 70001 ≤ 70683 ∧ 70683 ≤ 99999) ∧
    parse_declension_form_id (compute_declension_form_id 10789 3 1 2 2) =
      { lemma_id := 10789, case_v := 3, gender := 1, number := 2, ending_index := 2 } ∧
    parse_conjugation_form_id (compute_conjugation_form_id 70683 2 3 1 0 3) =
      { lemma_id := 70683, tense := 2, person := 3, number := 1, voice := 0, ending_index := 3 } := by
  refine ⟨by decide, ?_, ?_⟩
  · exact (claim_c1_codec_bijection 10789 3 1 2 2 (by decide) (by decide) (by decide)
      (by decide) (by decide) (by decide) 70683 2 3 1 0 3 (by decide) (by decide)
      (by decide) (by decide) (by decide) (by decide) (by decide)).1
  · exact (claim_c1_codec_bijection 10789 3 1 2 2 (by decide) (by decide) (by decide)
      (by decide) (by decide) (by decide) 70683 2 3 1 0 3 (by decide) (by decide)
      (by decide) (by decide) (by decide) (by decide) (by decide)).2

/-- C2. `save_registry(new, original)` raises whenever some lemma of
original's noun or verb partition is absent from the corresponding
partition of new or mapped there to a different ID; consequently, when it
returns normally, every mapping of original is present unchanged in new. -/
theorem claim_c2_save_registry_never_loses_mappings (new orig : Registry) :
    (((∃ p ∈ orig.nouns, new.nouns.lookup p.1 ≠ some p.2) ∨
      (∃ p ∈ orig.verbs, new.verbs.lookup p.1 ≠ some p.2)) →
      ∃ e, save_registry new orig = Except.error e) ∧
    (save_registry new orig = Except.ok () →
      ((∀ p ∈ orig.nouns, new.nouns.lookup p.1 = some p.2) ∧
       (∀ p ∈ orig.verbs, new.verbs.lookup p.1 = some p.2))) := by
  have hok : save_registry new orig = Except.ok () →
      ((∀ p ∈ orig.nouns, new.nouns.lookup p.1 = some p.2) ∧
       (∀ p ∈ orig.verbs, new.verbs.lookup p.1 = some p.2)) := by
    intro h
    unfold save_registry at h
    cases hv : validate_registry new <;> rw [hv] at h
    · cases h
    · cases hc1 : checkPreserved RegistryError.nounRemoved RegistryError.nounChanged
        new.nouns orig.nouns <;> rw [hc1] at h
      · cases h
      · rename_i u1 u2
        cases u2
        exact ⟨(checkPreserved_ok_iff _ _ _ _).mp hc1,
               (checkPreserved_ok_iff _ _ _ _).mp h⟩
  refine ⟨?_, hok⟩
  intro hviol
  cases hs : save_registry new orig with
  | error e => exact ⟨e, rfl⟩
  | ok u =>
    cases u
    exfalso
    have hpres := hok hs
    rcases hviol with ⟨p, hp, hne⟩ | ⟨p, hp, hne⟩
    · exact hne (hpres.1 p hp)
    · exact hne (hpres.2 p hp)

/-- Witness for C2: a registry that dropped the noun mapping
`"buddha" ↦ 10001` makes `save_registry` raise. -/
theorem claim_c2_save_registry_never_loses_mappings_witness :
    (∃ p ∈ [("buddha", (10001 : Int))],
       (([] : List (String × Int)).lookup p.1 ≠ some p.2)) ∧
    ∃ e, save_registry
        { version := 1, next_noun_id := 10001, next_verb_id := 70001, nouns := [], verbs := [] }
        { version := 1, next_noun_id := 10002, next_verb_id := 70001,
          nouns := [("buddha", 10001)], verbs := [] } = Except.error e := by
  constructor
  · exact ⟨("buddha", 10001), by decide, by decide⟩
  · exact (claim_c2_save_registry_never_loses_mappings _ _).1
      (Or.inl ⟨("buddha", 10001), by decide, by decide⟩)

/-- C3. `get_noun_lemma_id` / `get_verb_lemma_id`: a present lemma gets
its stored ID back with the registry unchanged; an absent lemma, with the
watermark within range, gets the watermark value, exactly that one
mapping appended and the watermark advanced by 1; hence a second call
with the same lemma returns the same ID and changes nothing. -/
theorem claim_c3_get_or_assign_stability (reg : Registry) (l : String) :
    ((∀ i, reg.nouns.lookup l = some i →
        get_noun_lemma_id reg l = (Except.ok i, reg)) ∧
     (reg.nouns.lookup l = none → reg.next_noun_id ≤ NOUN_ID_MAX →
        get_noun_lemma_id reg l =
          (Except.ok reg.next_noun_id,
           { reg with nouns := reg.nouns ++ [(l, reg.next_noun_id)],
                      next_noun_id := reg.next_noun_id + 1 })) ∧
     (∀ i reg2, get_noun_lemma_id reg l = (Except.ok i, reg2) →
        get_noun_lemma_id reg2 l = (Except.ok i, reg2))) ∧
    ((∀ i, reg.verbs.lookup l = some i →
        get_verb_lemma_id reg l = (Except.ok i, reg)) ∧
     (reg.verbs.lookup l = none → reg.next_verb_id ≤ VERB_ID_MAX →
        get_verb_lemma_id reg l =
          (Except.ok reg.next_verb_id,
           { reg with verbs := reg.verbs ++ [(l, reg.next_verb_id)],
                      next_verb_id := reg.next_verb_id + 1 })) ∧
     (∀ i reg2, get_verb_lemma_id reg l = (Except.ok i, reg2) →
        get_verb_lemma_id reg2 l = (Except.ok i, reg2))) := by
  constructor
  · refine ⟨?_, ?_, ?_⟩
    · intro i h
      unfold get_noun_lemma_id
      split
      · rename_i j hl
        rw [h] at hl
        obtain rfl := Option.some.inj hl
        rfl
      · rename_i hl
        rw [h] at hl
        cases hl
    · intro h hle
      unfold get_noun_lemma_id
      split
      · rename_i j hl
        rw [h] at hl
        cases hl
      · dsimp only
        split
        · rename_i hmax
          exact absurd hmax (not_lt.mpr hle)
        · rfl
    · intro i reg2 h
      have hl2 : reg2.nouns.lookup l = some i := by
        unfold get_noun_lemma_id at h
        split at h
        · rename_i j hl
          rw [Prod.mk.injEq] at h
          obtain ⟨h1, h2⟩ := h
          rw [← h2, hl, Except.ok.inj h1]
        · rename_i hl
          dsimp only at h
          split at h
          · rw [Prod.mk.injEq] at h
            exact Except.noConfusion h.1
          · rw [Prod.mk.injEq] at h
            obtain ⟨h1, h2⟩ := h
            obtain rfl : i = reg.next_noun_id := (Except.ok.inj h1).symm
            rw [← h2]
            exact lookup_append_single reg.nouns l reg.next_noun_id hl
      unfold get_noun_lemma_id
      rw [hl2]
  · refine ⟨?_, ?_, ?_⟩
    · intro i h
      unfold get_verb_lemma_id
      split
      · rename_i j hl
        rw [h] at hl
        obtain rfl := Option.some.inj hl
        rfl
      · rename_i hl
        rw [h] at hl
        cases hl
    · intro h hle
      unfold get_verb_lemma_id
      split
      · rename_i j hl
        rw [h] at hl
        cases hl
      · dsimp only
        split
        · rename_i hmax
          exact absurd hmax (not_lt.mpr hle)
        · rfl
    · intro i reg2 h
      have hl2 : reg2.verbs.lookup l = some i := by
        unfold get_verb_lemma_id at h
        split at h
        · rename_i j hl
          rw [Prod.mk.injEq] at h
          obtain ⟨h1, h2⟩ := h
          rw [← h2, hl, Except.ok.inj h1]
        · rename_i hl
          dsimp only at h
          split at h
          · rw [Prod.mk.injEq] at h
            exact Except.noConfusion h.1
          · rw [Prod.mk.injEq] at h
            obtain ⟨h1, h2⟩ := h
            obtain rfl : i = reg.next_verb_id := (Except.ok.inj h1).symm
            rw [← h2]
            exact lookup_append_single reg.verbs l reg.next_verb_id hl
      unfold get_verb_lemma_id
      rw [hl2]

/-- Witness for C3: on a fresh registry, assigning the absent noun lemma
"buddha" yields the watermark 10001, appends the one mapping and advances
the watermark. -/
theorem claim_c3_get_or_assign_stability_witness :
    ((List.lookup "buddha" ([] : List (String × Int)) = none ∧ (10001 : Int) ≤ NOUN_ID_MAX) ∧
     get_noun_lemma_id
       { version := 1, next_noun_id := 10001, next_verb_id := 70001, nouns := [], verbs := [] }
       "buddha" =
     (Except.ok 10001,
      { version := 1, next_noun_id := 10002, next_verb_id := 70001,
        nouns := [("buddha", 10001)], verbs := [] })) := by
  constructor
  · exact ⟨rfl, by decide⟩
  · exact (claim_c3_get_or_assign_stability
      { version := 1, next_noun_id := 10001, next_verb_id := 70001, nouns := [], verbs := [] }
      "buddha").1.2.1 rfl (by decide)

/-- C4. When the watermark is past the partition maximum and the lemma is
absent, `get_noun_lemma_id` (resp. `get_verb_lemma_id`) raises and leaves
the registry unchanged: no mapping is added and the watermark keeps its
value. -/
theorem claim_c4_watermark_overflow (reg : Registry) (l : String) :
    (reg.nouns.lookup l = none → reg.next_noun_id > NOUN_ID_MAX →
      get_noun_lemma_id reg l = (Except.error RegistryError.nounOverflow, reg)) ∧
    (reg.verbs.lookup l = none → reg.next_verb_id > VERB_ID_MAX →
      get_verb_lemma_id reg l = (Except.error RegistryError.verbOverflow, reg)) := by
  constructor
  · intro h hmax
    unfold get_noun_lemma_id
    split
    · rename_i j hl
      rw [h] at hl
      cases hl
    · rw [if_pos hmax]
  · intro h hmax
    unfold get_verb_lemma_id
    split
    · rename_i j hl
      rw [h] at hl
      cases hl
    · rw [if_pos hmax]

/-- Witness for C4: a registry whose noun watermark is 70000 (past
69999) raises on an absent noun lemma and is returned unchanged. -/
theorem claim_c4_watermark_overflow_witness :
    ((List.lookup "x" ([] : List (String × Int)) = none ∧ (70000 : Int) > NOUN_ID_MAX) ∧
     get_noun_lemma_id
       { version := 1, next_noun_id := 70000, next_verb_id := 70001, nouns := [], verbs := [] }
       "x" =
     (Except.error RegistryError.nounOverflow,
      { version := 1, next_noun_id := 70000, next_verb_id := 70001, nouns := [], verbs := [] })) := by
  constructor
  · exact ⟨rfl, by decide⟩
  · exact (claim_c4_watermark_overflow
      { version := 1, next_noun_id := 70000, next_verb_id := 70001, nouns := [], verbs := [] }
      "x").1 rfl (by decide)

/-- The permutation relating the two gender encodings: the package maps
feminine to 2 and neuter to 3, the orchestrator the other way round. -/
def genderSwap : Nat → Nat
  | 2 => 3
  | 3 => 2
  | n => n

/-- C9 counterexample: on the descriptor "fem nom sg" the package
classifier returns gender 2 while the orchestrator's duplicated
classifier returns gender 3, so the two functions are not extensionally
equal (their gender constants for feminine and neuter are swapped). -/
theorem claim_c9_counterexample :
    (Grammar.parse_noun_grammar "fem nom sg" "" "fem").gender = 2 ∧
    (Extractor.parse_noun_grammar "fem nom sg" "" "fem").gender = 3 ∧
    Extractor.parse_noun_grammar "fem nom sg" "" "fem" ≠
      Grammar.parse_noun_grammar "fem nom sg" "" "fem" := by decide

/-- C9 as amended: the two classifiers agree on case and number for every
input, and their genders agree up to the transposition of the values 2
and 3 (they coincide exactly on masculine and undetermined genders). -/
theorem claim_c9_classifier_agreement_up_to_gender_swap (g l p : String) :
    (Extractor.parse_noun_grammar g l p).case_name =
      (Grammar.parse_noun_grammar g l p).case_name ∧
    (Extractor.parse_noun_grammar g l p).number =
      (Grammar.parse_noun_grammar g l p).number ∧
    (Extractor.parse_noun_grammar g l p).gender =
      genderSwap ((Grammar.parse_noun_grammar g l p).gender) := by
  refine ⟨rfl, rfl, ?_⟩
  unfold Extractor.parse_noun_grammar Grammar.parse_noun_grammar
  dsimp only
  split_ifs <;> rfl

/-- A non-zero result of the descriptor case scan means some case
abbreviation occurs as a whole token of the split descriptor. -/
theorem caseFromParts_spec (parts : List String) (h : caseFromParts parts ≠ 0) :
    ∃ pr ∈ case_abbr_map, parts.contains pr.1 = true := by
  unfold caseFromParts at h
  split at h
  · rename_i pr hf
    exact ⟨pr, List.mem_of_find?_eq_some hf, by simpa using List.find?_some hf⟩
  · exact absurd rfl h

/-- A non-zero result of the label fallback scan means some case
abbreviation occurs as a substring of the lowercased label. -/
theorem caseFromLabel_spec (labelLower : String) (h : caseFromLabel labelLower ≠ 0) :
    ∃ pr ∈ case_abbr_map, pyIn pr.1 labelLower = true := by
  unfold caseFromLabel at h
  split at h
  · rename_i pr hf
    exact ⟨pr, List.mem_of_find?_eq_some hf, by simpa using List.find?_some hf⟩
  · exact absurd rfl h

/-- C8 counterexample: on the descriptor "xmascx" the classifier assigns
gender masculine although no gender abbreviation occurs as a whole
whitespace-separated token of the lowercased descriptor — the gender scan
is substring-based, not token-based. -/
theorem claim_c8_counterexample :
    (Grammar.parse_noun_grammar "xmascx" "" "").gender = Grammar.GENDER_MASCULINE ∧
    (∀ t ∈ pySplit (pyLower "xmascx"), t ∉ (["masc", "fem", "nt"] : List String)) := by
  decide

/-- C8 as amended, dimension by dimension: only the case dimension is
token-based on the whitespace-split lowercased descriptor (first
abbreviation in priority order nom..voc wins), with the label fallback
substring-based; the number abbreviations 'sg'/'pl' are token-based while
the full words 'singular'/'plural' are substring-based (in both the noun
and the verb classifier); gender ('masc','fem','nt'), person
('1st','first','2nd','second','3rd','third'), tense
('opt','imp','fut','aor','pr','pres') and reflexive ('reflx') are
substring-based on the lowercased descriptor, the first match in the
source's fixed priority order winning. -/
theorem claim_c8_matching_discipline :
    -- case: assigned from the descriptor only via a whole-token match,
    -- or from the label via a substring match
    (∀ g l p, (Grammar.parse_noun_grammar g l p).case_name ≠ 0 →
      (∃ pr ∈ case_abbr_map, (pySplit (pyLower g)).contains pr.1 = true) ∨
      (∃ pr ∈ case_abbr_map, pyIn pr.1 (pyLower l) = true)) ∧
    -- gender: assigned only via a substring match
    (∀ g l p, (Grammar.parse_noun_grammar g l p).gender ≠ 0 →
      pyIn "masc" (pyLower g) = true ∨ pyIn "fem" (pyLower g) = true ∨
      pyIn "nt" (pyLower g) = true) ∧
    -- gender priority: masc first, then fem
    (∀ g l p, pyIn "masc" (pyLower g) = true →
      (Grammar.parse_noun_grammar g l p).gender = Grammar.GENDER_MASCULINE) ∧
    (∀ g l p, pyIn "masc" (pyLower g) = false → pyIn "fem" (pyLower g) = true →
      (Grammar.parse_noun_grammar g l p).gender = Grammar.GENDER_FEMININE) ∧
    -- number (noun): assigned only via an 'sg'/'pl' token or a
    -- 'singular'/'plural' substring
    (∀ g l p, (Grammar.parse_noun_grammar g l p).number ≠ 0 →
      (pySplit (pyLower g)).contains "sg" = true ∨ pyIn "singular" (pyLower g) = true ∨
      (pySplit (pyLower g)).contains "pl" = true ∨ pyIn "plural" (pyLower g) = true) ∧
    -- number sufficiency: an 'sg' token, or a 'singular' substring, sets singular
    (∀ g l p, (pySplit (pyLower g)).contains "sg" = true →
      (Grammar.parse_noun_grammar g l p).number = 1) ∧
    (∀ g l p, pyIn "singular" (pyLower g) = true →
      (Grammar.parse_noun_grammar g l p).number = 1) ∧
    -- number is token-based for 'sg': a mere substring occurrence does not fire
    ((Grammar.parse_noun_grammar "xsgx" "" "").number = 0 ∧
     pyIn "sg" (pyLower "xsgx") = true) ∧
    -- number (verb): same discipline as the noun classifier
    (∀ g l p, (Grammar.parse_verb_grammar g l p).number ≠ 0 →
      (pySplit (pyLower g)).contains "sg" = true ∨ pyIn "singular" (pyLower g) = true ∨
      (pySplit (pyLower g)).contains "pl" = true ∨ pyIn "plural" (pyLower g) = true) ∧
    -- person: assigned only via a substring match
    (∀ g l p, (Grammar.parse_verb_grammar g l p).person ≠ 0 →
      pyIn "1st" (pyLower g) = true ∨ pyIn "first" (pyLower g) = true ∨
      pyIn "2nd" (pyLower g) = true ∨ pyIn "second" (pyLower g) = true ∨
      pyIn "3rd" (pyLower g) = true ∨ pyIn "third" (pyLower g) = true) ∧
    -- person priority: '1st' first
    (∀ g l p, pyIn "1st" (pyLower g) = true →
      (Grammar.parse_verb_grammar g l p).person = 1) ∧
    -- tense: assigned only via a substring match
    (∀ g l p, (Grammar.parse_verb_grammar g l p).tense ≠ 0 →
      pyIn "opt" (pyLower g) = true ∨ pyIn "imp" (pyLower g) = true ∨
      pyIn "fut" (pyLower g) = true ∨ pyIn "aor" (pyLower g) = true ∨
      pyIn "pr" (pyLower g) = true ∨ pyIn "pres" (pyLower g) = true) ∧
    -- tense priority: opt first, then imp
    (∀ g l p, pyIn "opt" (pyLower g) = true →
      (Grammar.parse_verb_grammar g l p).tense = 3) ∧
    (∀ g l p, pyIn "opt" (pyLower g) = false → pyIn "imp" (pyLower g) = true →
      (Grammar.parse_verb_grammar g l p).tense = 2) ∧
    -- reflexive: exactly the substring test for 'reflx'
    (∀ g l p, ((Grammar.parse_verb_grammar g l p).reflexive = 1 ↔
      pyIn "reflx" (pyLower g) = true)) := by
  refine ⟨?_, ?_, ?_, ?_, ?_, ?_, ?_, by decide, ?_, ?_, ?_, ?_, ?_, ?_, ?_⟩
  · intro g l p h
    unfold Grammar.parse_noun_grammar at h
    dsimp only at h
    split at h
    · exact Or.inr (caseFromLabel_spec _ h)
    · exact Or.inl (caseFromParts_spec _ h)
  · intro g l p h
    unfold Grammar.parse_noun_grammar at h
    dsimp only at h
    split at h
    · rename_i hc
      exact Or.inl hc
    · split at h
      · rename_i hc
        exact Or.inr (Or.inl hc)
      · split at h
        · rename_i hc
          exact Or.inr (Or.inr hc)
        · exact absurd rfl h
  · intro g l p h
    unfold Grammar.parse_noun_grammar
    dsimp only
    rw [if_pos h]
  · intro g l p h1 h2
    unfold Grammar.parse_noun_grammar
    dsimp only
    rw [if_neg (by simp [h1]), if_pos h2]
  · intro g l p h
    unfold Grammar.parse_noun_grammar at h
    dsimp only at h
    split at h
    · rename_i hc
      rcases Bool.or_eq_true_iff.mp hc with hsg | hsing
      · exact Or.inl hsg
      · exact Or.inr (Or.inl hsing)
    · split at h
      · rename_i hc
        rcases Bool.or_eq_true_iff.mp hc with hpl | hplu
        · exact Or.inr (Or.inr (Or.inl hpl))
        · exact Or.inr (Or.inr (Or.inr hplu))
      · exact absurd rfl h
  · intro g l p h
    unfold Grammar.parse_noun_grammar
    dsimp only
    rw [if_pos (Bool.or_eq_true_iff.mpr (Or.inl h))]
  · intro g l p h
    unfold Grammar.parse_noun_grammar
    dsimp only
    rw [if_pos (Bool.or_eq_true_iff.mpr (Or.inr h))]
  · intro g l p h
    unfold Grammar.parse_verb_grammar at h
    dsimp only at h
    split at h
    · rename_i hc
      rcases Bool.or_eq_true_iff.mp hc with hsg | hsing
      · exact Or.inl hsg
      · exact Or.inr (Or.inl hsing)
    · split at h
      · rename_i hc
        rcases Bool.or_eq_true_iff.mp hc with hpl | hplu
        · exact Or.inr (Or.inr (Or.inl hpl))
        · exact Or.inr (Or.inr (Or.inr hplu))
      · exact absurd rfl h
  · intro g l p h
    unfold Grammar.parse_verb_grammar at h
    dsimp only at h
    split at h
    · rename_i hc
      rcases Bool.or_eq_true_iff.mp hc with h1 | h1
      · exact Or.inl h1
      · exact Or.inr (Or.inl h1)
    · split at h
      · rename_i hc
        rcases Bool.or_eq_true_iff.mp hc with h2 | h2
        · exact Or.inr (Or.inr (Or.inl h2))
        · exact Or.inr (Or.inr (Or.inr (Or.inl h2)))
      · split at h
        · rename_i hc
          rcases Bool.or_eq_true_iff.mp hc with h3 | h3
          · exact Or.inr (Or.inr (Or.inr (Or.inr (Or.inl h3))))
          · exact Or.inr (Or.inr (Or.inr (Or.inr (Or.inr h3))))
        · exact absurd rfl h
  · intro g l p h
    unfold Grammar.parse_verb_grammar
    dsimp only
    rw [if_pos (Bool.or_eq_true_iff.mpr (Or.inl h))]
  · intro g l p h
    unfold Grammar.parse_verb_grammar at h
    dsimp only at h
    split at h
    · rename_i hc
      exact Or.inl hc
    · split at h
      · rename_i hc
        exact Or.inr (Or.inl hc)
      · split at h
        · rename_i hc
          exact Or.inr (Or.inr (Or.inl hc))
        · split at h
          · rename_i hc
            exact Or.inr (Or.inr (Or.inr (Or.inl hc)))
          · split at h
            · rename_i hc
              rcases Bool.or_eq_true_iff.mp hc with hpr | hpres
              · exact Or.inr (Or.inr (Or.inr (Or.inr (Or.inl hpr))))
              · exact Or.inr (Or.inr (Or.inr (Or.inr (Or.inr hpres))))
            · exact absurd rfl h
  · intro g l p h
    unfold Grammar.parse_verb_grammar
    dsimp only
    rw [if_pos h]
  · intro g l p h1 h2
    unfold Grammar.parse_verb_grammar
    dsimp only
    rw [if_neg (by simp [h1]), if_pos h2]
  · intro g l p
    unfold Grammar.parse_verb_grammar
    dsimp only
    by_cases h : pyIn "reflx" (pyLower g) = true
    · rw [if_pos h]
      simp [h]
    · rw [if_neg h]
      simp [h]

/-- Witness for C8 as amended, at concrete descriptors, one per
dimension: masc substring sets masculine; fem substring (without masc)
sets feminine; an 'sg' token and a 'singular' substring each set
singular; '1st' sets first person; 'opt' sets optative and 'imp'
(without 'opt') sets imperative; 'reflx' sets reflexive; "nom sg" gets
its case from a token match. -/
theorem claim_c8_matching_discipline_witness :
    (pyIn "masc" (pyLower "a masc nom sg") = true ∧
     (Grammar.parse_noun_grammar "a masc nom sg" "" "").gender = Grammar.GENDER_MASCULINE) ∧
    (pyIn "masc" (pyLower "fem nom") = false ∧ pyIn "fem" (pyLower "fem nom") = true ∧
     (Grammar.parse_noun_grammar "fem nom" "" "").gender = Grammar.GENDER_FEMININE) ∧
    ((pySplit (pyLower "nom sg")).contains "sg" = true ∧
     (Grammar.parse_noun_grammar "nom sg" "" "").number = 1) ∧
    (pyIn "singular" (pyLower "xsingularx") = true ∧
     (Grammar.parse_noun_grammar "xsingularx" "" "").number = 1) ∧
    ((Grammar.parse_verb_grammar "pr 3rd pl" "" "").number ≠ 0 ∧
     ((pySplit (pyLower "pr 3rd pl")).contains "sg" = true ∨
      pyIn "singular" (pyLower "pr 3rd pl") = true ∨
      (pySplit (pyLower "pr 3rd pl")).contains "pl" = true ∨
      pyIn "plural" (pyLower "pr 3rd pl") = true)) ∧
    (pyIn "1st" (pyLower "pr 1st sg") = true ∧
     (Grammar.parse_verb_grammar "pr 1st sg" "" "").person = 1) ∧
    (pyIn "opt" (pyLower "opt 3rd sg") = true ∧
     (Grammar.parse_verb_grammar "opt 3rd sg" "" "").tense = 3) ∧
    (pyIn "opt" (pyLower "imp 2nd sg") = false ∧ pyIn "imp" (pyLower "imp 2nd sg") = true ∧
     (Grammar.parse_verb_grammar "imp 2nd sg" "" "").tense = 2) ∧
    (pyIn "reflx" (pyLower "reflx 3rd sg") = true ∧
     (Grammar.parse_verb_grammar "reflx 3rd sg" "" "").reflexive = 1) ∧
    ((Grammar.parse_noun_grammar "nom sg" "" "x").case_name ≠ 0 ∧
     ((∃ pr ∈ case_abbr_map, (pySplit (pyLower "nom sg")).contains pr.1 = true) ∨
      (∃ pr ∈ case_abbr_map, pyIn pr.1 (pyLower "") = true))) := by
  obtain ⟨hcase, hgen, hmasc, hfem, hnnum, hsg, hsing, hxsgx, hvnum, hper, h1st,
    htense, hopt, himp, hreflx⟩ := claim_c8_matching_discipline
  refine ⟨⟨by decide, hmasc "a masc nom sg" "" "" (by decide)⟩,
    ⟨by decide, by decide, hfem "fem nom" "" "" (by decide) (by decide)⟩,
    ⟨by decide, hsg "nom sg" "" "" (by decide)⟩,
    ⟨by decide, hsing "xsingularx" "" "" (by decide)⟩,
    ⟨by decide, hvnum "pr 3rd pl" "" "" (by decide)⟩,
    ⟨by decide, h1st "pr 1st sg" "" "" (by decide)⟩,
    ⟨by decide, hopt "opt 3rd sg" "" "" (by decide)⟩,
    ⟨by decide, by decide, himp "imp 2nd sg" "" "" (by decide) (by decide)⟩,
    ⟨by decide, (hreflx "reflx 3rd sg" "" "").mpr (by decide)⟩,
    ⟨by decide, hcase "nom sg" "" "x" (by decide)⟩⟩

/-- C5 counterexample: `wPluralOnly` has a plural-only pattern, generates
forms (one of them corpus-attested), has no nominative singular — and is
discarded by the gate, with no corpus_declensions rows written. The
plural-only exemption the claim describes does not exist in
`extract_and_save`. -/
theorem claim_c5_counterexample :
    is_plural_only_pattern wPluralOnly.pattern = true ∧
    (Extractor.parse_inflection_template_noun ["kusalā"] wPluralOnly).1 ≠ [] ∧
    Extractor.has_nom_sg (Extractor.parse_inflection_template_noun ["kusalā"] wPluralOnly).1 = false ∧
    Extractor.noun_is_trainable ["kusalā"] wPluralOnly = false ∧
    Extractor.noun_corpus_declension_ids ["kusalā"] 10001 wPluralOnly = [] := by
  decide

/-- C5 as amended: every noun lemma whose generated forms contain no
nominative-singular form is excluded from the trainable set — whatever
its pattern; plural-only patterns get no exemption from the gate. -/
theorem claim_c5_nom_sg_gate (corpus : List String) (w : Word) (lemma_id : Nat)
    (h : Extractor.has_nom_sg (Extractor.parse_inflection_template_noun corpus w).1 = false) :
    Extractor.noun_is_trainable corpus w = false ∧
    Extractor.noun_corpus_declension_ids corpus lemma_id w = [] := by
  constructor
  · unfold Extractor.noun_is_trainable
    dsimp only
    rw [h, Bool.and_false]
  · unfold Extractor.noun_corpus_declension_ids
    dsimp only
    rw [h, Bool.and_false]
    simp

/-- Witness for C5 as amended at `wPluralOnly`. -/
theorem claim_c5_nom_sg_gate_witness :
    Extractor.has_nom_sg (Extractor.parse_inflection_template_noun ["kusalā"] wPluralOnly).1 = false ∧
    Extractor.noun_is_trainable ["kusalā"] wPluralOnly = false ∧
    Extractor.noun_corpus_declension_ids ["kusalā"] 10001 wPluralOnly = [] := by
  refine ⟨by decide, ?_, ?_⟩
  · exact (claim_c5_nom_sg_gate ["kusalā"] wPluralOnly 10001 (by decide)).1
  · exact (claim_c5_nom_sg_gate ["kusalā"] wPluralOnly 10001 (by decide)).2

/-- C6 counterexample: a row labelled "in comps" does produce a
GeneratedForm in `parse_inflection_template` — the skip exists only in
the dedup module's template readers. -/
theorem claim_c6_counterexample :
    Dedup.rowSkip [Cell.strs ["in comps"], Cell.strs ["kara"], Cell.strs [""]] = true ∧
    (Extractor.parse_inflection_template_noun [] wInComps).1 =
      [{ form := "xkara", in_corpus := false, ending_index := 0,
         grammar := { case_name := 0, number := 0, gender := 0 } }] := by
  decide

/-- C6 as amended: rows whose label contains "in comps" contribute no
forms to either dedup template reader, but `parse_inflection_template`
does generate forms from such rows (witnessed by `wInComps`), so they do
reach the completeness validation that consumes its output. -/
theorem claim_c6_in_comps_scope (stem : String) (acc : List String) (row : List Cell)
    (h : Dedup.rowSkip row = true) :
    Dedup.rowAllForms stem acc row = acc ∧
    Dedup.rowPluralForms stem acc row = acc ∧
    (Extractor.parse_inflection_template_noun [] wInComps).1 ≠ [] := by
  refine ⟨?_, ?_, by decide⟩
  · unfold Dedup.rowAllForms
    rw [if_pos h]
  · unfold Dedup.rowPluralForms
    by_cases hl : row.length < 4
    · rw [if_pos hl]
    · rw [if_neg hl, if_pos h]

/-- Witness for C6 as amended at the concrete "in comps" row. -/
theorem claim_c6_in_comps_scope_witness :
    Dedup.rowSkip [Cell.strs ["in comps"], Cell.strs ["kara"], Cell.strs [""]] = true ∧
    Dedup.rowAllForms "x" []
      [Cell.strs ["in comps"], Cell.strs ["kara"], Cell.strs [""]] = [] ∧
    Dedup.rowPluralForms "x" []
      [Cell.strs ["in comps"], Cell.strs ["kara"], Cell.strs [""]] = [] := by
  refine ⟨by decide, ?_, ?_⟩
  · exact (claim_c6_in_comps_scope "x" []
      [Cell.strs ["in comps"], Cell.strs ["kara"], Cell.strs [""]] (by decide)).1
  · exact (claim_c6_in_comps_scope "x" []
      [Cell.strs ["in comps"], Cell.strs ["kara"], Cell.strs [""]] (by decide)).2.1

/-- C10 counterexample: a nominative-singular cell with ten endings makes
the pass encode ending_index 10 for the tenth ending; the resulting
form_id ends in the digit 0 and decodes to ending_index 0. -/
theorem claim_c10_counterexample :
    Extractor.noun_corpus_declension_ids ["xj"] 10001 wTenEndings = [100011120] ∧
    100011120 % 10 = 0 ∧
    (parse_declension_form_id 100011120).ending_index = 0 := by
  decide

/-- C10 as amended: the pass always encodes the 1-based ordinal
`ending_index + 1`, so every inserted form_id ends in a digit ≥ 1
provided each form's 0-based variant ordinal is at most 8 (that is, no
endings cell offers ten or more alternatives); a cell with ten endings
can produce a trailing digit 0. -/
theorem claim_c10_ending_digit (corpus : List String) (lemma_id : Nat) (w : Word)
    (hn : ∀ f ∈ (Extractor.parse_inflection_template_noun corpus w).1, f.ending_index ≤ 8)
    (hv : ∀ f ∈ (Extractor.parse_inflection_template_verb corpus w).1, f.ending_index ≤ 8) :
    (∀ id ∈ Extractor.noun_corpus_declension_ids corpus lemma_id w, 1 ≤ id % 10) ∧
    (∀ id ∈ Extractor.verb_corpus_conjugation_ids corpus lemma_id w, 1 ≤ id % 10) := by
  constructor
  · intro id hid
    unfold Extractor.noun_corpus_declension_ids at hid
    dsimp only at hid
    split at hid
    · rw [List.mem_filterMap] at hid
      obtain ⟨f, hf, hg⟩ := hid
      split at hg
      · have he := hn f hf
        have hide := Option.some.inj hg
        rw [← hide]
        unfold compute_declension_form_id
        omega
      · cases hg
    · cases hid
  · intro id hid
    unfold Extractor.verb_corpus_conjugation_ids at hid
    dsimp only at hid
    split at hid
    · rw [List.mem_filterMap] at hid
      obtain ⟨f, hf, hg⟩ := hid
      split at hg
      · have he := hv f hf
        have hide := Option.some.inj hg
        rw [← hide]
        unfold compute_conjugation_form_id
        omega
      · cases hg
    · cases hid

/-- Witness for C10 as amended at `wOneEnding` (single-ending cells,
ordinal 0 everywhere). -/
theorem claim_c10_ending_digit_witness :
    (∀ f ∈ (Extractor.parse_inflection_template_noun ["xo"] wOneEnding).1, f.ending_index ≤ 8) ∧
    (∀ f ∈ (Extractor.parse_inflection_template_verb ["xo"] wOneEnding).1, f.ending_index ≤ 8) ∧
    (∀ id ∈ Extractor.noun_corpus_declension_ids ["xo"] 10001 wOneEnding, 1 ≤ id % 10) := by
  refine ⟨by decide, by decide, ?_⟩
  exact (claim_c10_ending_digit ["xo"] 10001 wOneEnding (by decide) (by decide)).1

/-- Loop invariant of `check_loop`: the result is flagged redundant
exactly when its share exceeds 0.5, provided the starting accumulator
satisfies the same relation. -/
theorem check_loop_redundant_iff_share (forms : List String)
    (cands : List Dedup.Candidate) (best : Dedup.PluralMatchResult)
    (h : best.is_redundant = decide (best.match_share > (1 : ℚ)/2)) :
    (Dedup.check_loop forms cands best).is_redundant =
      decide ((Dedup.check_loop forms cands best).match_share > (1 : ℚ)/2) := by
  induction cands generalizing best with
  | nil => exact h
  | cons c rest ih =>
    obtain ⟨l1, pat, sf⟩ := c
    unfold Dedup.check_loop
    dsimp only
    split
    · exact ih best h
    · set m := forms.filter (fun x => sf.contains x) with hm
      set share := if forms.isEmpty = true then (0 : ℚ)
        else (m.length : ℚ) / (forms.length : ℚ) with hshare
      by_cases hex : share > (1 : ℚ)/2
      · rw [if_pos hex]
        by_cases hbb : share > best.match_share
        · rw [if_pos hbb]
        · rw [if_neg hbb]
          exact h
      · rw [if_neg hex]
        by_cases hbb : share > best.match_share
        · rw [if_pos hbb]
          exact ih _ rfl
        · rw [if_neg hbb]
          exact ih _ h

/-- When every candidate's plural set misses every form, `check_loop`
returns its accumulator unchanged (no candidate ever improves a zero
share). -/
theorem check_loop_empty_overlap (forms : List String)
    (cands : List Dedup.Candidate) (best : Dedup.PluralMatchResult)
    (hb : best.match_share = 0)
    (h : ∀ c ∈ cands, ∀ x ∈ forms, (c.2.2 : List String).contains x = false) :
    Dedup.check_loop forms cands best = best := by
  induction cands generalizing best with
  | nil => rfl
  | cons c rest ih =>
    obtain ⟨l1, pat, sf⟩ := c
    unfold Dedup.check_loop
    dsimp only
    split
    · exact ih best hb (fun c hc => h c (List.mem_cons_of_mem _ hc))
    · have hfil : forms.filter (fun x => sf.contains x) = [] := by
        rw [List.filter_eq_nil_iff]
        intro x hx
        have hcx : sf.contains x = false :=
          h (l1, pat, sf) (List.mem_cons_self _ _) x hx
        simpa using hcx
      rw [hfil, hb]
      simp only [List.length_nil, Nat.cast_zero, zero_div, ite_self]
      rw [if_neg (lt_irrefl (0 : ℚ))]
      rw [if_neg (by norm_num : ¬((0 : ℚ) > 1/2))]
      exact ih best hb (fun c hc => h c (List.mem_cons_of_mem _ hc))

/-- Evaluation of `check_redundant` on the two-candidate index: the scan
stops at lemA (share 3/5 > 0.5) without reaching lemB (share 1). Stated
as a helper because kernel reduction cannot evaluate rational division,
so the loop is stepped symbolically. -/
theorem check_redundant_c7Index_eval :
    Dedup.check_redundant c7Index wFiveForms =
      { is_redundant := true, matched_lemma := some "lemA",
        matched_pattern := some "a masc", match_share := 3/5,
        plural_only_forms := 5, matching_forms := 3 } := by
  have hforms : Dedup.get_all_forms_from_template wFiveForms
      = ["xa", "xb", "xc", "xd", "xe"] := by decide
  unfold Dedup.check_redundant
  dsimp only
  split
  · rename_i hcond
    simp [show is_plural_only_pattern wFiveForms.pattern = true from by decide] at hcond
  · split
    · rename_i hemp
      rw [hforms] at hemp
      cases hemp
    · rw [hforms]
      rw [show ((c7Index.lookup (clean_stem wFiveForms.stem)).getD [] : List Dedup.Candidate)
            = [("lemA", "a masc", ["xa", "xb", "xc"]),
               ("lemB", "a masc", ["xa", "xb", "xc", "xd", "xe"])] from by decide]
      unfold Dedup.check_loop
      dsimp only
      rw [if_neg (by decide : ¬((["xa", "xb", "xc"] : List String).isEmpty = true))]
      rw [show (["xa", "xb", "xc", "xd", "xe"] : List String).filter
            (fun x => (["xa", "xb", "xc"] : List String).contains x)
            = ["xa", "xb", "xc"] from by decide]
      rw [if_neg (by decide : ¬((["xa", "xb", "xc", "xd", "xe"] : List String).isEmpty = true))]
      simp only [List.length_cons, List.length_nil]
      norm_num

/-- C7 counterexample: on `c7Index`, lemB's plural set contains all five
forms of `wFiveForms` (share 1.0) and is the highest-share candidate, but
`check_redundant` stops at lemA — the first candidate whose share exceeds
0.5 — and reports lemA with share 3/5: neither the highest-share
candidate nor, despite the 100%-subset candidate, share 1.0. -/
theorem claim_c7_counterexample :
    Dedup.check_redundant c7Index wFiveForms =
      { is_redundant := true, matched_lemma := some "lemA",
        matched_pattern := some "a masc", match_share := 3/5,
        plural_only_forms := 5, matching_forms := 3 } ∧
    (∀ x ∈ Dedup.get_all_forms_from_template wFiveForms,
       (["xa", "xb", "xc", "xd", "xe"] : List String).contains x = true) ∧
    (Dedup.check_redundant c7Index wFiveForms).matched_lemma ≠ some "lemB" ∧
    (Dedup.check_redundant c7Index wFiveForms).match_share ≠ 1 := by
  refine ⟨check_redundant_c7Index_eval, by decide, ?_, ?_⟩
  · rw [check_redundant_c7Index_eval]
    simp
  · rw [check_redundant_c7Index_eval]
    norm_num

/-- C7 as amended: `check_redundant` classifies as redundant exactly when
the returned share exceeds 0.5; with empty overlap against every
same-stem candidate the result is not redundant with share 0; and when
the form set is wholly contained in the plural forms of the *first*
same-stem candidate the result is redundant with share 1.0 attributed to
that candidate. (Because the scan stops at the first candidate whose
share exceeds 0.5, the reported candidate is the best among the prefix it
visited, not necessarily the globally best one.) -/
theorem claim_c7_dedup_decision (index : List (String × List Dedup.Candidate)) (w : Word) :
    ((Dedup.check_redundant index w).is_redundant =
       decide ((Dedup.check_redundant index w).match_share > (1 : ℚ)/2)) ∧
    ((∀ c ∈ ((index.lookup (clean_stem w.stem)).getD [] : List Dedup.Candidate),
        ∀ x ∈ Dedup.get_all_forms_from_template w, (c.2.2 : List String).contains x = false) →
      (Dedup.check_redundant index w).is_redundant = false ∧
      (Dedup.check_redundant index w).match_share = 0) ∧
    (∀ l1 pat sf rest,
      is_plural_only_pattern w.pattern = true →
      ((index.lookup (clean_stem w.stem)).getD [] : List Dedup.Candidate) = (l1, pat, sf) :: rest →
      Dedup.get_all_forms_from_template w ≠ [] →
      sf ≠ [] →
      (∀ x ∈ Dedup.get_all_forms_from_template w, sf.contains x = true) →
      Dedup.check_redundant index w =
        { is_redundant := true, matched_lemma := some l1, matched_pattern := some pat,
          match_share := 1,
          plural_only_forms := (Dedup.get_all_forms_from_template w).length,
          matching_forms := (Dedup.get_all_forms_from_template w).length }) := by
  refine ⟨?_, ?_, ?_⟩
  · unfold Dedup.check_redundant
    dsimp only
    split
    · exact (decide_eq_false (by norm_num : ¬((0 : ℚ) > 1/2))).symm
    · split
      · exact (decide_eq_false (by norm_num : ¬((0 : ℚ) > 1/2))).symm
      · exact check_loop_redundant_iff_share _ _ _
          ((decide_eq_false (by norm_num : ¬((0 : ℚ) > 1/2))).symm)
  · intro hover
    unfold Dedup.check_redundant
    dsimp only
    split
    · exact ⟨rfl, rfl⟩
    · split
      · exact ⟨rfl, rfl⟩
      · rw [check_loop_empty_overlap _ _ _ rfl hover]
        exact ⟨rfl, rfl⟩
  · intro l1 pat sf rest hp hcands hforms hsf hsub
    unfold Dedup.check_redundant
    dsimp only
    split
    · rename_i hcond
      simp [hp] at hcond
    · split
      · rename_i hemp
        exact absurd (List.isEmpty_iff.mp hemp) hforms
      · rw [hcands]
        unfold Dedup.check_loop
        dsimp only
        have hsf' : sf.isEmpty = false := by
          cases sf with
          | nil => exact absurd rfl hsf
          | cons a t => rfl
        rw [hsf']
        rw [if_neg (by simp : ¬(false = true))]
        have hfil : (Dedup.get_all_forms_from_template w).filter (fun x => sf.contains x)
            = Dedup.get_all_forms_from_template w :=
          List.filter_eq_self.mpr hsub
        rw [hfil]
        have hempf : (Dedup.get_all_forms_from_template w).isEmpty = false := by
          cases hh : Dedup.get_all_forms_from_template w with
          | nil => exact absurd hh hforms
          | cons a t => rfl
        rw [hempf]
        rw [if_neg (by simp : ¬(false = true))]
        have hlen : ((Dedup.get_all_forms_from_template w).length : ℚ) /
            ((Dedup.get_all_forms_from_template w).length : ℚ) = 1 :=
          div_self (Nat.cast_ne_zero.mpr
            (fun h0 => hforms (List.length_eq_zero.mp h0)))
        rw [hlen]
        rw [if_pos (by norm_num : (1 : ℚ) > 0)]
        rw [if_pos (by norm_num : (1 : ℚ) > 1/2)]
        norm_num [Dedup.PluralMatchResult.mk.injEq]

/-- Witness for C7 as amended: an empty index yields "not redundant,
share 0" for `wFiveForms`; a single fully-covering first candidate
yields "redundant, share 1" for it. -/
theorem claim_c7_dedup_decision_witness :
    ((∀ c ∈ ((([] : List (String × List Dedup.Candidate)).lookup
          (clean_stem wFiveForms.stem)).getD [] : List Dedup.Candidate),
        ∀ x ∈ Dedup.get_all_forms_from_template wFiveForms,
          (c.2.2 : List String).contains x = false) ∧
     (Dedup.check_redundant [] wFiveForms).is_redundant = false ∧
     (Dedup.check_redundant [] wFiveForms).match_share = 0) ∧
    Dedup.check_redundant
        [("x", [("lemB", "a masc", ["xa", "xb", "xc", "xd", "xe"])])] wFiveForms =
      { is_redundant := true, matched_lemma := some "lemB",
        matched_pattern := some "a masc", match_share := 1,
        plural_only_forms := (Dedup.get_all_forms_from_template wFiveForms).length,
        matching_forms := (Dedup.get_all_forms_from_template wFiveForms).length } := by
  constructor
  · refine ⟨by decide, ?_⟩
    exact (claim_c7_dedup_decision [] wFiveForms).2.1 (by decide)
  · exact (claim_c7_dedup_decision
      [("x", [("lemB", "a masc", ["xa", "xb", "xc", "xd", "xe"])])] wFiveForms).2.2
      "lemB" "a masc" ["xa", "xb", "xc", "xd", "xe"] []
      (by decide) (by decide) (by decide) (by decide) (by decide)
